import Mathlib

/-!
Verification of the quota state engine of `claude-quota`.

The Go source is shallowly embedded:
* `float64` quantities (utilizations, percentages) and instants/durations
  (`time.Time`, `time.Duration`) are modelled as exact rationals `ℚ`
  (durations in seconds; `fiveHourWindow = 5*time.Hour = 18000 s`);
* `nil` pointers become `Option`, Go errors become `Except`;
* the external effects of one `Fetch` cycle (credential lookup, request
  construction, HTTP round-trip, JSON decode, RFC3339 parsing, wall clock)
  are collected in a `FetchEnv` record, and `Fetch` is a pure function of
  that record, mirroring the Go control flow line by line.
-/

/-- `QuotaState` from quota.go: the published quota snapshot. -/
structure QuotaState where
  FiveHour             : Option ℚ
  FiveHourResets       : Option ℚ
  FiveHourProjected    : Option ℚ
  FiveHourSaturation   : Option ℚ
  SevenDay             : Option ℚ
  SevenDayResets       : Option ℚ
  SevenDaySonnet       : Option ℚ
  SevenDaySonnetResets : Option ℚ
  LastUpdate           : Option ℚ
  Error                : String
  TokenExpired         : Bool
deriving DecidableEq, Repr

/-- The zero `QuotaState`, as produced by `NewQuotaClient` (Go zero value). -/
def initialQuotaState : QuotaState :=
  { FiveHour := none, FiveHourResets := none, FiveHourProjected := none,
    FiveHourSaturation := none, SevenDay := none, SevenDayResets := none,
    SevenDaySonnet := none, SevenDaySonnetResets := none,
    LastUpdate := none, Error := "", TokenExpired := false }

/-- `usageBucket` from quota.go: one wire-level bucket of the usage response. -/
structure usageBucket where
  Utilization : Option ℚ
  ResetsAt    : Option String
deriving DecidableEq, Repr

/-- `usageResponse` from quota.go: the decoded JSON body of the usage API. -/
structure usageResponse where
  FiveHour       : Option usageBucket
  SevenDay       : Option usageBucket
  SevenDaySonnet : Option usageBucket
deriving DecidableEq, Repr

/-- `fiveHourWindow = 5 * time.Hour`, in seconds. -/
def fiveHourWindow : ℚ := 18000

/-- `computeProjection` from quota.go: extrapolates utilization at window
reset from the average consumption rate over the elapsed window portion.
`resetsAt.After(now)` is the strict comparison `now < resetsAt`. -/
def computeProjection (current resetsAt now windowDuration : ℚ) : Option ℚ :=
  if current ≤ 0 ∨ ¬ now < resetsAt ∨ windowDuration ≤ 0 then none
  else
    let timeUntilReset := resetsAt - now
    let timeElapsed := windowDuration - timeUntilReset
    if timeElapsed ≤ 0 then none
    else some (current * windowDuration / timeElapsed)

/-- `computeSaturationTime` from quota.go: estimates when utilization reaches
100 % at the current average rate; `nil` unless that instant is strictly
before `resetsAt` (`!saturation.Before(resetsAt)` returns `nil`). -/
def computeSaturationTime (current resetsAt now windowDuration : ℚ) : Option ℚ :=
  if current ≤ 0 ∨ 100 ≤ current ∨ ¬ now < resetsAt ∨ windowDuration ≤ 0 then none
  else
    let timeElapsed := windowDuration - (resetsAt - now)
    if timeElapsed ≤ 0 then none
    else
      let saturation := now + timeElapsed * (100 - current) / current
      if ¬ saturation < resetsAt then none
      else some saturation

/-- `OAuthCredentials` from the credentials file: cached token and its
expiry in milliseconds since the epoch (`0` = unknown expiry). -/
structure OAuthCredentials where
  accessToken : String
  expiresAt   : Int
deriving DecidableEq, Repr

/-- Message of `ErrTokenExpired`. -/
def errTokenExpiredMsg : String :=
  "OAuth token has expired — run \x27claude login\x27 to re-authenticate"

/-- `OAuthCredentials.isExpired`, parametrised by the wall clock reading
`nowMs = time.Now().UnixMilli()` (60-second safety margin; `expiresAt == 0`
means unknown expiry, treated as valid). -/
def OAuthCredentials.isExpired (oc : OAuthCredentials) (nowMs : Int) : Bool :=
  if oc.expiresAt = 0 then false
  else decide (oc.expiresAt - 60000 ≤ nowMs)

/-- The errors `GetAccessToken` can return: the bare `ErrTokenExpired`, or
`fmt.Errorf("%w (reload failed: %v)", ErrTokenExpired, err)` which wraps
`ErrTokenExpired` around the reload failure. -/
inductive CredError where
  | tokenExpired : CredError
  | tokenExpiredWrap : String → CredError
deriving DecidableEq, Repr

/-- `err.Error()` for a `CredError`. -/
def CredError.message : CredError → String
  | .tokenExpired => errTokenExpiredMsg
  | .tokenExpiredWrap cause =>
      errTokenExpiredMsg ++ " (reload failed: " ++ cause ++ ")"

/-- `errors.Is(err, ErrTokenExpired)`: true for the bare error and for the
`%w`-wrapped one (Go unwraps `%w` chains). -/
def CredError.isTokenExpiredErr : CredError → Bool
  | .tokenExpired => true
  | .tokenExpiredWrap _ => true

/-- `OAuthCredentials.GetAccessToken`, with the wall clock and the outcome of
a possible `load()` from disk passed explicitly: returns the cached token if
not expired; otherwise reloads, propagating a wrapped `ErrTokenExpired` on
reload failure and the bare `ErrTokenExpired` if still expired after reload.
Returns the token together with the (possibly reloaded) credential state. -/
def GetAccessToken (oc : OAuthCredentials) (nowMs : Int)
    (reload : Except String OAuthCredentials) :
    Except CredError (String × OAuthCredentials) :=
  if oc.isExpired nowMs then
    match reload with
    | .error e => .error (.tokenExpiredWrap e)
    | .ok oc2 =>
        if oc2.isExpired nowMs then .error .tokenExpired
        else .ok (oc2.accessToken, oc2)
  else .ok (oc.accessToken, oc)

/-- `truncate` from quota.go: `runes := []rune(s); if len(runes) <= n return
s; return string(runes[:n])`. Lean `String.data` is exactly the rune list. -/
def truncate (s : String) (n : Nat) : String :=
  if s.data.length ≤ n then s else String.mk (s.data.take n)

/-- The fixed 401 message `"Token invalid — run 'claude login'"`. -/
def msg401 : String := "Token invalid — run \x27claude login\x27"

/-- The fixed 403 message. -/
def msg403 : String := "Scope missing user:profile"

/-- The `switch resp.StatusCode` classification of a non-200 status:
401 and 403 get fixed messages, anything else `fmt.Sprintf("HTTP %d", code)`. -/
def statusMessage (status : Nat) : String :=
  if status = 401 then msg401
  else if status = 403 then msg403
  else "HTTP " ++ Nat.repr status

/-- `parseBucket` from quota.go, with `time.Parse(time.RFC3339, ·)` passed in
as `parse` (returning the parsed instant in seconds, or `none` on parse
failure): copies utilization if present, and sets the reset time only when
the string is present and parses. Returns the `(util, resets)` pair the Go
function writes through its out-pointers. -/
def parseBucket (parse : String → Option ℚ) :
    Option usageBucket → Option ℚ × Option ℚ
  | none => (none, none)
  | some b =>
      (b.Utilization,
       match b.ResetsAt with
       | none => none
       | some s => parse s)

/-- The external world of one `Fetch` cycle: the outcome of
`creds.GetAccessToken()`, of `http.NewRequest` (`none` = no error), of
`client.Do` (an error, or a status code together with the outcome of the
JSON decode of the body), the RFC3339 parser, and `time.Now().UTC()`. -/
structure FetchEnv where
  cred      : Except CredError String
  reqErr    : Option String
  doResult  : Except String (Nat × Except String usageResponse)
  parseTime : String → Option ℚ
  now       : ℚ

/-- An error-only snapshot, as installed by `setError`. -/
def errorState (msg : String) : QuotaState :=
  { initialQuotaState with Error := msg }

/-- The data snapshot a successful `Fetch` builds: the three buckets run
through `parseBucket`, `LastUpdate` stamped, the five-hour projection when
both utilization and reset time are present, and the saturation time only
when the projection exceeds 100. -/
def buildSnapshot (env : FetchEnv) (data : usageResponse) : QuotaState :=
  let fh := parseBucket env.parseTime data.FiveHour
  let sd := parseBucket env.parseTime data.SevenDay
  let ss := parseBucket env.parseTime data.SevenDaySonnet
  let projected : Option ℚ :=
    match fh.1, fh.2 with
    | some u, some r => computeProjection u r env.now fiveHourWindow
    | _, _ => none
  let saturation : Option ℚ :=
    match projected, fh.1, fh.2 with
    | some p, some u, some r =>
        if 100 < p then computeSaturationTime u r env.now fiveHourWindow
        else none
    | _, _, _ => none
  { FiveHour := fh.1, FiveHourResets := fh.2,
    FiveHourProjected := projected, FiveHourSaturation := saturation,
    SevenDay := sd.1, SevenDayResets := sd.2,
    SevenDaySonnet := ss.1, SevenDaySonnetResets := ss.2,
    LastUpdate := some env.now, Error := "", TokenExpired := false }

/-- `QuotaClient.Fetch` as a pure function of the cycle's external outcomes:
returns the `(success, installed snapshot)` pair, following the Go control
flow: credential error (with `TokenExpired := errors.Is(err,
ErrTokenExpired)` and the message truncated to 50 runes), request error,
transport error, non-200 status classification, JSON decode error, and
finally the parsed data snapshot. -/
def Fetch (env : FetchEnv) : Bool × QuotaState :=
  match env.cred with
  | .error e =>
      (false, { initialQuotaState with
                  Error := truncate e.message 50,
                  TokenExpired := e.isTokenExpiredErr })
  | .ok _ =>
    match env.reqErr with
    | some m => (false, errorState (truncate m 50))
    | none =>
      match env.doResult with
      | .error m => (false, errorState (truncate m 50))
      | .ok (status, body) =>
          if status ≠ 200 then (false, errorState (statusMessage status))
          else
            match body with
            | .error m => (false, errorState (truncate m 50))
            | .ok data => (true, buildSnapshot env data)

/-- The states a `QuotaClient` can ever hold: the zero state of
`NewQuotaClient`, and any snapshot installed by a `Fetch` (reads through
`State()` do not change the state; `Fetch` installs a wholly new snapshot
regardless of the previous one). -/
inductive Reachable : QuotaState → Prop where
  | init : Reachable initialQuotaState
  | fetch : ∀ (s : QuotaState) (env : FetchEnv),
      Reachable s → Reachable (Fetch env).2

/-- An error snapshot: non-empty error, every quota field absent. -/
def isErrorSnapshot (s : QuotaState) : Prop :=
  s.Error ≠ "" ∧ s.FiveHour = none ∧ s.FiveHourResets = none ∧
  s.FiveHourProjected = none ∧ s.FiveHourSaturation = none ∧
  s.SevenDay = none ∧ s.SevenDayResets = none ∧
  s.SevenDaySonnet = none ∧ s.SevenDaySonnetResets = none ∧
  s.LastUpdate = none

/-- A data snapshot: empty error string. -/
def isDataSnapshot (s : QuotaState) : Prop := s.Error = ""

/-- The raw (pre-truncation) message of the error path an environment sends
`Fetch` down, `""` on the success path. -/
def fetchRawError (env : FetchEnv) : String :=
  match env.cred with
  | .error e => e.message
  | .ok _ =>
    match env.reqErr with
    | some m => m
    | none =>
      match env.doResult with
      | .error m => m
      | .ok (status, body) =>
          if status ≠ 200 then statusMessage status
          else
            match body with
            | .error m => m
            | .ok _ => ""

/-- The three quota classes of the usage response. -/
inductive BucketId where
  | fiveHour
  | sevenDay
  | sevenDaySonnet
deriving DecidableEq, Repr

/-- What a published snapshot carries as projected utilization for each
bucket: `QuotaState` has a projection field only for the five-hour bucket;
for the seven-day buckets no such field exists, so nothing is carried. -/
def carriedProjection (s : QuotaState) : BucketId → Option ℚ
  | .fiveHour => s.FiveHourProjected
  | .sevenDay => none
  | .sevenDaySonnet => none

/-- The bucket of a usage response selected by id. -/
def responseBucket (data : usageResponse) : BucketId → Option usageBucket
  | .fiveHour => data.FiveHour
  | .sevenDay => data.SevenDay
  | .sevenDaySonnet => data.SevenDaySonnet

/-- The utilization a published snapshot carries for each bucket. -/
def carriedUtilization (s : QuotaState) : BucketId → Option ℚ
  | .fiveHour => s.FiveHour
  | .sevenDay => s.SevenDay
  | .sevenDaySonnet => s.SevenDaySonnet

/-- The reset time a published snapshot carries for each bucket. -/
def carriedResets (s : QuotaState) : BucketId → Option ℚ
  | .fiveHour => s.FiveHourResets
  | .sevenDay => s.SevenDayResets
  | .sevenDaySonnet => s.SevenDaySonnetResets

/-- A concrete successful fetch environment whose `seven_day` bucket has
both a utilization (50) and a parseable reset time (instant 3700, one hour
after `now = 100`). -/
def envC6 : FetchEnv :=
  { cred := Except.ok "tok",
    reqErr := none,
    doResult := Except.ok (200, Except.ok
      { FiveHour := none,
        SevenDay := some { Utilization := some 50,
                           ResetsAt := some "2031-01-01T00:01:40Z" },
        SevenDaySonnet := none }),
    parseTime := fun s =>
      if s = "2031-01-01T00:01:40Z" then some 3700 else none,
    now := 100 }

/-- C1: for window duration `W > 0`, `computeProjection` returns `none`
exactly when `current ≤ 0`, or `resetsAt` is not strictly after `now`, or
`timeElapsed = W - (resetsAt - now) ≤ 0`; otherwise it returns
`current * W / timeElapsed`, uncapped; in particular 50 % utilization with
one hour left of a five-hour window projects to 62.5. -/
theorem C1_computeProjection_spec
    (current resetsAt now windowDuration : ℚ) (hW : 0 < windowDuration) :
    (computeProjection current resetsAt now windowDuration = none ↔
      current ≤ 0 ∨ resetsAt ≤ now ∨
        windowDuration - (resetsAt - now) ≤ 0) ∧
    (0 < current → now < resetsAt →
      0 < windowDuration - (resetsAt - now) →
      computeProjection current resetsAt now windowDuration =
        some (current * windowDuration /
          (windowDuration - (resetsAt - now)))) ∧
    computeProjection 50 (now + 3600) now 18000 = some (125 / 2) := by
  refine ⟨?_, ?_, by norm_num [computeProjection]⟩
  · simp only [computeProjection]
    split_ifs with h1 h2
    · simp only [true_iff]
      rcases h1 with h | h | h
      · exact Or.inl h
      · exact Or.inr (Or.inl (not_lt.mp h))
      · exact absurd hW (not_lt.mpr h)
    · simp only [true_iff]
      exact Or.inr (Or.inr h2)
    · push_neg at h1 h2
      simp only [false_iff, not_or, not_le]
      exact ⟨h1.1, h1.2.1, h2⟩
  · intro hc hr ht
    simp only [computeProjection]
    rw [if_neg, if_neg]
    · exact not_le.mpr ht
    · push_neg
      exact ⟨hc, hr, hW⟩

/-- Witness for C1 at `current = 50`, `resetsAt = 3700`, `now = 100`,
`W = 18000`. -/
theorem C1_computeProjection_spec_witness :
    (computeProjection 50 3700 100 18000 = none ↔
      (50 : ℚ) ≤ 0 ∨ (3700 : ℚ) ≤ 100 ∨
        (18000 : ℚ) - (3700 - 100) ≤ 0) ∧
    ((0 : ℚ) < 50 → (100 : ℚ) < 3700 →
      (0 : ℚ) < 18000 - (3700 - 100) →
      computeProjection 50 3700 100 18000 =
        some (50 * 18000 / (18000 - (3700 - 100)))) ∧
    computeProjection 50 (100 + 3600) 100 18000 = some (125 / 2) :=
  C1_computeProjection_spec 50 3700 100 18000 (by norm_num)

/-- C2: for window duration `W > 0`, `computeSaturationTime` returns `none`
exactly when `current ≤ 0`, or `current ≥ 100`, or `resetsAt` is not after
`now`, or `timeElapsed ≤ 0`, or the saturation instant
`now + timeElapsed * (100 - current) / current` is not strictly before
`resetsAt`; otherwise it returns that instant; utilization exactly 100
always yields `none`. -/
theorem C2_computeSaturationTime_spec
    (current resetsAt now windowDuration : ℚ) (hW : 0 < windowDuration) :
    (computeSaturationTime current resetsAt now windowDuration = none ↔
      current ≤ 0 ∨ 100 ≤ current ∨ resetsAt ≤ now ∨
        windowDuration - (resetsAt - now) ≤ 0 ∨
        resetsAt ≤ now + (windowDuration - (resetsAt - now)) *
          (100 - current) / current) ∧
    (0 < current → current < 100 → now < resetsAt →
      0 < windowDuration - (resetsAt - now) →
      now + (windowDuration - (resetsAt - now)) * (100 - current) / current
        < resetsAt →
      computeSaturationTime current resetsAt now windowDuration =
        some (now + (windowDuration - (resetsAt - now)) *
          (100 - current) / current)) ∧
    computeSaturationTime 100 resetsAt now windowDuration = none := by
  refine ⟨?_, ?_, by simp [computeSaturationTime]⟩
  · simp only [computeSaturationTime]
    split_ifs with h1 h2 h3
    · simp only [true_iff]
      rcases h1 with h | h | h | h
      · exact Or.inl h
      · exact Or.inr (Or.inl h)
      · exact Or.inr (Or.inr (Or.inl (not_lt.mp h)))
      · exact absurd hW (not_lt.mpr h)
    · simp only [true_iff]
      exact Or.inr (Or.inr (Or.inr (Or.inl h2)))
    · push_neg at h1 h2
      simp only [false_iff, not_or, not_le]
      exact ⟨h1.1, h1.2.1, h1.2.2.1, h2, h3⟩
    · simp only [true_iff]
      exact Or.inr (Or.inr (Or.inr (Or.inr (not_lt.mp h3))))
  · intro hc hc100 hr ht hsat
    simp only [computeSaturationTime]
    rw [if_neg, if_neg, if_neg]
    · exact not_not.mpr hsat
    · exact not_le.mpr ht
    · push_neg
      exact ⟨hc, hc100, hr, hW⟩

/-- Witness for C2 at `current = 80`, `resetsAt = 14500`, `now = 100`,
`W = 18000` (saturation at `1000`). -/
theorem C2_computeSaturationTime_spec_witness :
    computeSaturationTime 80 14500 100 18000 =
      some (100 + (18000 - (14500 - 100)) * (100 - 80) / 80) :=
  (C2_computeSaturationTime_spec 80 14500 100 18000 (by norm_num)).2.1
    (by norm_num) (by norm_num) (by norm_num) (by norm_num) (by norm_num)

/-- Helper: in the fully-guarded region, `computeProjection` returns the
extrapolated value. -/
lemma computeProjection_eq_some (current resetsAt now windowDuration : ℚ)
    (hc : 0 < current) (hr : now < resetsAt) (hW : 0 < windowDuration)
    (ht : 0 < windowDuration - (resetsAt - now)) :
    computeProjection current resetsAt now windowDuration =
      some (current * windowDuration / (windowDuration - (resetsAt - now))) := by
  simp only [computeProjection]
  rw [if_neg, if_neg]
  · exact not_le.mpr ht
  · push_neg
    exact ⟨hc, hr, hW⟩

/-- Helper: in its fully-guarded region, `computeSaturationTime` reduces to
the final `saturation < resetsAt` test. -/
lemma computeSaturationTime_eq_ite (current resetsAt now windowDuration : ℚ)
    (hc : 0 < current) (hc100 : current < 100) (hr : now < resetsAt)
    (hW : 0 < windowDuration)
    (ht : 0 < windowDuration - (resetsAt - now)) :
    computeSaturationTime current resetsAt now windowDuration =
      (if now + (windowDuration - (resetsAt - now)) * (100 - current) / current
          < resetsAt
       then some (now + (windowDuration - (resetsAt - now)) *
         (100 - current) / current)
       else none) := by
  simp only [computeSaturationTime]
  rw [if_neg, if_neg]
  · split_ifs with h
    · rfl
    · rfl
  · exact not_le.mpr ht
  · push_neg
    exact ⟨hc, hc100, hr, hW⟩

/-- Helper: the saturation instant is before the reset exactly when the
projection exceeds 100. -/
lemma saturation_lt_reset_iff (current resetsAt now windowDuration : ℚ)
    (hc : 0 < current) (ht : 0 < windowDuration - (resetsAt - now)) :
    (now + (windowDuration - (resetsAt - now)) * (100 - current) / current
        < resetsAt) ↔
      100 < current * windowDuration / (windowDuration - (resetsAt - now)) := by
  rw [lt_div_iff₀ ht]
  constructor
  · intro h
    have hq : (windowDuration - (resetsAt - now)) * (100 - current) / current
        < resetsAt - now := by linarith
    have h2 := mul_lt_mul_of_pos_right hq hc
    rw [div_mul_cancel₀ _ (ne_of_gt hc)] at h2
    nlinarith [h2]
  · intro h
    have h2 : (windowDuration - (resetsAt - now)) * (100 - current)
        < (resetsAt - now) * current := by nlinarith [h]
    have h3 := (div_lt_iff₀ hc).mpr h2
    linarith

/-- Helper: the rune list of a truncation is the `min n length`-rune
initial segment of the rune list of the input. -/
lemma truncate_data (s : String) (n : Nat) :
    (truncate s n).data = s.data.take (min n s.data.length) := by
  unfold truncate
  split_ifs with h
  · rw [Nat.min_eq_right h, List.take_length]
  · rw [Nat.min_eq_left (Nat.le_of_lt (Nat.lt_of_not_le h))]

/-- Helper: truncating a non-empty string to a positive budget is
non-empty. -/
lemma truncate_ne_empty (s : String) (n : Nat)
    (hs : s.data ≠ []) (hn : 0 < n) : truncate s n ≠ "" := by
  intro h
  have hd : (truncate s n).data = ([] : List Char) := by rw [h]
  rw [truncate_data] at hd
  rcases List.take_eq_nil_iff.mp hd with h0 | h0
  · rcases Nat.min_eq_zero_iff.mp h0 with h1 | h1
    · exact absurd h1 (Nat.pos_iff_ne_zero.mp hn)
    · exact hs (List.length_eq_zero.mp h1)
  · exact hs h0

/-- Helper: both credential error messages are non-empty. -/
lemma credError_message_ne_nil (e : CredError) : e.message.data ≠ [] := by
  cases e with
  | tokenExpired => decide
  | tokenExpiredWrap cause =>
      show ((errTokenExpiredMsg ++ " (reload failed: " ++ cause)
        ++ ")").data ≠ []
      simp [String.data_append, errTokenExpiredMsg]

/-- Helper: every non-200 status message is non-empty. -/
lemma statusMessage_ne_empty (status : Nat) : statusMessage status ≠ "" := by
  unfold statusMessage
  split_ifs
  · decide
  · decide
  · intro h
    have hd : ("HTTP " ++ Nat.repr status).data = ([] : List Char) := by
      rw [h]
    simp [String.data_append] at hd

/-- Helper: `errorState` always yields one of the two snapshot shapes. -/
lemma errorState_shape (m : String) :
    isErrorSnapshot (errorState m) ∨ isDataSnapshot (errorState m) := by
  by_cases h : m = ""
  · exact Or.inr h
  · exact Or.inl ⟨h, rfl, rfl, rfl, rfl, rfl, rfl, rfl, rfl, rfl⟩

/-- Helper: everything `Fetch` publishes is an error snapshot or a data
snapshot, `TokenExpired` implies an error snapshot, and `TokenExpired` can
only come from a credential failure. -/
lemma fetch_snapshot_shape (env : FetchEnv) :
    ((isErrorSnapshot (Fetch env).2 ∨ isDataSnapshot (Fetch env).2) ∧
      ((Fetch env).2.TokenExpired = true → isErrorSnapshot (Fetch env).2)) ∧
    ((Fetch env).2.TokenExpired = true → ∃ e, env.cred = Except.error e) := by
  obtain ⟨cred, reqErr, doResult, parseTime, now⟩ := env
  cases cred with
  | error e =>
      have hne : truncate e.message 50 ≠ "" :=
        truncate_ne_empty _ _ (credError_message_ne_nil e) (by norm_num)
      exact ⟨⟨Or.inl ⟨hne, rfl, rfl, rfl, rfl, rfl, rfl, rfl, rfl, rfl⟩,
        fun _ => ⟨hne, rfl, rfl, rfl, rfl, rfl, rfl, rfl, rfl, rfl⟩⟩,
        fun _ => ⟨e, rfl⟩⟩
  | ok tok =>
      cases reqErr with
      | some m =>
          exact ⟨⟨errorState_shape _, fun h => absurd h (by simp [Fetch, errorState, initialQuotaState, buildSnapshot])⟩,
            fun h => absurd h (by simp [Fetch, errorState, initialQuotaState, buildSnapshot])⟩
      | none =>
          cases doResult with
          | error m =>
              exact ⟨⟨errorState_shape _, fun h => absurd h (by simp [Fetch, errorState, initialQuotaState, buildSnapshot])⟩,
                fun h => absurd h (by simp [Fetch, errorState, initialQuotaState, buildSnapshot])⟩
          | ok sb =>
              obtain ⟨status, body⟩ := sb
              by_cases hstat : status = 200
              · subst hstat
                cases body with
                | error m =>
                    exact ⟨⟨errorState_shape _,
                      fun h => absurd h (by simp [Fetch, errorState, initialQuotaState, buildSnapshot])⟩,
                      fun h => absurd h (by simp [Fetch, errorState, initialQuotaState, buildSnapshot])⟩
                | ok data =>
                    refine ⟨⟨Or.inr ?_, fun h => absurd h (by simp [Fetch, errorState, initialQuotaState, buildSnapshot])⟩,
                      fun h => absurd h (by simp [Fetch, errorState, initialQuotaState, buildSnapshot])⟩
                    show (buildSnapshot _ data).Error = ""
                    rfl
              · have hfe : Fetch ⟨Except.ok tok, none,
                    Except.ok (status, body), parseTime, now⟩ =
                    (false, errorState (statusMessage status)) := by
                  simp [Fetch, hstat]
                rw [hfe]
                refine ⟨⟨Or.inl ⟨statusMessage_ne_empty status,
                  rfl, rfl, rfl, rfl, rfl, rfl, rfl, rfl, rfl⟩, fun _ => ?_⟩,
                  fun h => absurd h (by simp [errorState, initialQuotaState])⟩
                exact ⟨statusMessage_ne_empty status,
                  rfl, rfl, rfl, rfl, rfl, rfl, rfl, rfl, rfl⟩

/-- C3: every state a `QuotaClient` can reach through any sequence of
`Fetch` and `State` calls is an error snapshot (non-empty error, every
quota field absent) or a data snapshot (empty error); `TokenExpired` holds
only in an error snapshot, and only one produced by a credential failure
(both credential failures are of the expiry kind). -/
theorem C3_snapshot_invariant :
    (∀ s, Reachable s → (isErrorSnapshot s ∨ isDataSnapshot s) ∧
      (s.TokenExpired = true → isErrorSnapshot s)) ∧
    (∀ env, (Fetch env).2.TokenExpired = true →
      ∃ e, env.cred = Except.error e) := by
  constructor
  · intro s hs
    induction hs with
    | init =>
        exact ⟨Or.inr rfl, fun h => absurd h (by simp [initialQuotaState])⟩
    | fetch s env hprev ih => exact (fetch_snapshot_shape env).1
  · intro env
    exact (fetch_snapshot_shape env).2

/-- Witness for C3 at the initial state and at a concrete fetched error
snapshot. -/
theorem C3_snapshot_invariant_witness :
    (isErrorSnapshot initialQuotaState ∨ isDataSnapshot initialQuotaState) ∧
    (initialQuotaState.TokenExpired = true →
      isErrorSnapshot initialQuotaState) :=
  C3_snapshot_invariant.1 initialQuotaState Reachable.init

/-- C10: in exact arithmetic, for `0 < current < 100`, `W > 0`, `resetsAt`
strictly after `now` and positive elapsed time, `computeSaturationTime`
returns a value exactly when `computeProjection` exceeds 100; every returned
saturation instant lies strictly between `now` and `resetsAt`; and the gate
used by `Fetch` (compute saturation only when the projection exceeds 100)
loses nothing: the gated expression equals `computeSaturationTime`. -/
theorem C10_saturation_iff_projection
    (current resetsAt now windowDuration : ℚ)
    (hc : 0 < current) (hc100 : current < 100) (hr : now < resetsAt)
    (hW : 0 < windowDuration)
    (ht : 0 < windowDuration - (resetsAt - now)) :
    ((computeSaturationTime current resetsAt now windowDuration).isSome
        = true ↔
      (∃ p, computeProjection current resetsAt now windowDuration = some p ∧
        100 < p)) ∧
    (∀ s, computeSaturationTime current resetsAt now windowDuration = some s →
      now < s ∧ s < resetsAt) ∧
    (match computeProjection current resetsAt now windowDuration with
     | some p =>
         if 100 < p then
           computeSaturationTime current resetsAt now windowDuration
         else none
     | none => none) =
      computeSaturationTime current resetsAt now windowDuration := by
  have hproj :=
    computeProjection_eq_some current resetsAt now windowDuration hc hr hW ht
  have hsat := computeSaturationTime_eq_ite current resetsAt now windowDuration
    hc hc100 hr hW ht
  have hiff :=
    saturation_lt_reset_iff current resetsAt now windowDuration hc ht
  refine ⟨?_, ?_, ?_⟩
  · rw [hsat, hproj]
    constructor
    · intro h
      split_ifs at h with hlt
      · exact ⟨_, rfl, hiff.mp hlt⟩
      · simp at h
    · rintro ⟨p, hp, hgt⟩
      have hp2 : current * windowDuration /
          (windowDuration - (resetsAt - now)) = p := Option.some_inj.mp hp
      rw [if_pos (hiff.mpr (hp2 ▸ hgt))]
      rfl
  · intro s hs
    rw [hsat] at hs
    split_ifs at hs with hlt
    · have hpos : 0 < (windowDuration - (resetsAt - now)) *
          (100 - current) / current :=
        div_pos (mul_pos ht (by linarith)) hc
      have hse : now + (windowDuration - (resetsAt - now)) *
          (100 - current) / current = s := Option.some_inj.mp hs
      constructor
      · linarith [hse]
      · rw [← hse]
        exact hlt
  · rw [hproj, hsat]
    by_cases hgt : 100 < current * windowDuration /
        (windowDuration - (resetsAt - now))
    · simp only [if_pos hgt]
    · simp only [if_neg hgt, if_neg (fun hlt => hgt (hiff.mp hlt))]

/-- Witness for C10 at `current = 90`, `resetsAt = 3700`, `now = 100`,
`W = 18000` (projection 112.5, saturation at 1700). -/
theorem C10_saturation_iff_projection_witness :
    (((computeSaturationTime 90 3700 100 18000).isSome = true ↔
      (∃ p, computeProjection 90 3700 100 18000 = some p ∧ 100 < p)) ∧
    (∀ s, computeSaturationTime 90 3700 100 18000 = some s →
      100 < s ∧ s < 3700) ∧
    (match computeProjection 90 3700 100 18000 with
     | some p =>
         if 100 < p then computeSaturationTime 90 3700 100 18000
         else none
     | none => none) = computeSaturationTime 90 3700 100 18000) :=
  C10_saturation_iff_projection 90 3700 100 18000 (by norm_num) (by norm_num)
    (by norm_num) (by norm_num) (by norm_num)

/-- C5: `isExpired` is `false` whenever `nowMs < expiresAt - 60000`; it is
`true` whenever `expiresAt ≠ 0` and `nowMs ≥ expiresAt - 60000`; and it is
always `false` when `expiresAt = 0` (unknown expiry treated as valid). -/
theorem C5_isExpired_spec (oc : OAuthCredentials) (nowMs : Int) :
    (nowMs < oc.expiresAt - 60000 → oc.isExpired nowMs = false) ∧
    (oc.expiresAt ≠ 0 → oc.expiresAt - 60000 ≤ nowMs →
      oc.isExpired nowMs = true) ∧
    (oc.expiresAt = 0 → oc.isExpired nowMs = false) := by
  unfold OAuthCredentials.isExpired
  refine ⟨fun h => ?_, fun h0 h => ?_, fun h0 => ?_⟩
  · split_ifs with h0
    · rfl
    · exact decide_eq_false (not_le.mpr h)
  · rw [if_neg h0]
    exact decide_eq_true h
  · rw [if_pos h0]

/-- Witness for C5 at `expiresAt = 1000000`, `nowMs = 939999` (one
millisecond inside the 60-second margin boundary: not yet expired) and at
`expiresAt = 0`. -/
theorem C5_isExpired_spec_witness :
    (OAuthCredentials.mk "tok" 1000000).isExpired 939999 = false ∧
    (OAuthCredentials.mk "tok" 1000000).isExpired 940000 = true ∧
    (OAuthCredentials.mk "tok" 0).isExpired 940000 = false :=
  ⟨(C5_isExpired_spec ⟨"tok", 1000000⟩ 939999).1 (by norm_num),
   (C5_isExpired_spec ⟨"tok", 1000000⟩ 940000).2.1 (by norm_num) (by norm_num),
   (C5_isExpired_spec ⟨"tok", 0⟩ 940000).2.2 rfl⟩

/-- Helper: a credential failure makes `Fetch` return `false` and publish an
error-only snapshot with `TokenExpired` set. -/
lemma fetch_credError (e : CredError) (env : FetchEnv)
    (h : env.cred = Except.error e) :
    (Fetch env).1 = false ∧ (Fetch env).2.TokenExpired = true ∧
    isErrorSnapshot (Fetch env).2 ∧
    (Fetch env).2.Error = truncate e.message 50 := by
  obtain ⟨cred, reqErr, doResult, parseTime, now⟩ := env
  cases h
  have hne : truncate e.message 50 ≠ "" :=
    truncate_ne_empty _ _ (credError_message_ne_nil e) (by norm_num)
  refine ⟨rfl, ?_, ⟨hne, rfl, rfl, rfl, rfl, rfl, rfl, rfl, rfl, rfl⟩, rfl⟩
  show e.isTokenExpiredErr = true
  cases e <;> rfl

/-- C4: `GetAccessToken` returns the cached token when not expired; when
expired it re-reads the source: a failed re-read yields an error wrapping
`ErrTokenExpired` with the cause, and a still-expired reloaded token yields
`ErrTokenExpired` itself; under either failure a `Fetch` publishes a
snapshot with `TokenExpired = true` and returns `false`. -/
theorem C4_getAccessToken_spec (oc : OAuthCredentials) (nowMs : Int)
    (reload : Except String OAuthCredentials) :
    (oc.isExpired nowMs = false →
      GetAccessToken oc nowMs reload = Except.ok (oc.accessToken, oc)) ∧
    (oc.isExpired nowMs = true →
      (∀ m, reload = Except.error m →
        GetAccessToken oc nowMs reload =
          Except.error (CredError.tokenExpiredWrap m) ∧
        (CredError.tokenExpiredWrap m).isTokenExpiredErr = true) ∧
      (∀ oc2, reload = Except.ok oc2 → oc2.isExpired nowMs = true →
        GetAccessToken oc nowMs reload =
          Except.error CredError.tokenExpired)) ∧
    (∀ (e : CredError) (env : FetchEnv), env.cred = Except.error e →
      (Fetch env).1 = false ∧ (Fetch env).2.TokenExpired = true) := by
  refine ⟨fun h => ?_, fun h => ⟨fun m hm => ?_, fun oc2 h2 hexp => ?_⟩,
    fun e env hcred => ⟨(fetch_credError e env hcred).1,
      (fetch_credError e env hcred).2.1⟩⟩
  · simp [GetAccessToken, h]
  · subst hm
    exact ⟨by simp [GetAccessToken, h], rfl⟩
  · subst h2
    simp [GetAccessToken, h, hexp]

/-- Witness for C4: an expired credential whose reload fails with a missing
file, then one whose reload returns a still-expired token; both drive a
`Fetch` to a `TokenExpired` error snapshot. -/
theorem C4_getAccessToken_spec_witness :
    (GetAccessToken ⟨"old", 1000000⟩ 2000000 (Except.error "file gone") =
      Except.error (CredError.tokenExpiredWrap "file gone")) ∧
    (GetAccessToken ⟨"old", 1000000⟩ 2000000 (Except.ok ⟨"old2", 1100000⟩) =
      Except.error CredError.tokenExpired) ∧
    (Fetch { cred := Except.error (CredError.tokenExpiredWrap "file gone"),
             reqErr := none,
             doResult := Except.ok (200, Except.ok ⟨none, none, none⟩),
             parseTime := fun _ => none, now := 0 }).1 = false ∧
    (Fetch { cred := Except.error (CredError.tokenExpiredWrap "file gone"),
             reqErr := none,
             doResult := Except.ok (200, Except.ok ⟨none, none, none⟩),
             parseTime := fun _ => none, now := 0 }).2.TokenExpired = true :=
  ⟨((C4_getAccessToken_spec ⟨"old", 1000000⟩ 2000000
      (Except.error "file gone")).2.1 (by decide)).1 "file gone" rfl |>.1,
   ((C4_getAccessToken_spec ⟨"old", 1000000⟩ 2000000
      (Except.ok ⟨"old2", 1100000⟩)).2.1 (by decide)).2
      ⟨"old2", 1100000⟩ rfl (by decide),
   ((C4_getAccessToken_spec ⟨"old", 1000000⟩ 2000000
      (Except.error "file gone")).2.2
      (CredError.tokenExpiredWrap "file gone") _ rfl).1,
   ((C4_getAccessToken_spec ⟨"old", 1000000⟩ 2000000
      (Except.error "file gone")).2.2
      (CredError.tokenExpiredWrap "file gone") _ rfl).2⟩

/-- C7: a non-200 usage response makes `Fetch` publish an error snapshot and
return `false`, with the fixed re-authenticate message for 401, the fixed
scope message for 403, and `"HTTP <code>"` for every other status. -/
theorem C7_status_classification (env : FetchEnv) (tok : String)
    (status : Nat) (body : Except String usageResponse)
    (hcred : env.cred = Except.ok tok) (hreq : env.reqErr = none)
    (hdo : env.doResult = Except.ok (status, body)) (hstat : status ≠ 200) :
    (Fetch env).1 = false ∧ isErrorSnapshot (Fetch env).2 ∧
    (Fetch env).2.Error =
      (if status = 401 then "Token invalid — run \x27claude login\x27"
       else if status = 403 then "Scope missing user:profile"
       else "HTTP " ++ Nat.repr status) := by
  obtain ⟨cred, reqErr, doResult, parseTime, now⟩ := env
  cases hcred
  cases hreq
  cases hdo
  have hfe : Fetch ⟨Except.ok tok, none, Except.ok (status, body),
      parseTime, now⟩ = (false, errorState (statusMessage status)) := by
    simp [Fetch, hstat]
  rw [hfe]
  exact ⟨rfl,
    ⟨statusMessage_ne_empty status,
      rfl, rfl, rfl, rfl, rfl, rfl, rfl, rfl, rfl⟩,
    by simp [errorState, statusMessage, msg401, msg403, initialQuotaState]⟩

/-- Witness for C7 at statuses 401, 403 and 500. -/
theorem C7_status_classification_witness :
    ((Fetch ⟨Except.ok "tok", none,
        Except.ok (401, Except.ok ⟨none, none, none⟩),
        fun _ => none, 0⟩).1 = false ∧
     (Fetch ⟨Except.ok "tok", none,
        Except.ok (401, Except.ok ⟨none, none, none⟩),
        fun _ => none, 0⟩).2.Error =
          "Token invalid — run \x27claude login\x27") ∧
    (Fetch ⟨Except.ok "tok", none,
        Except.ok (403, Except.ok ⟨none, none, none⟩),
        fun _ => none, 0⟩).2.Error = "Scope missing user:profile" ∧
    (Fetch ⟨Except.ok "tok", none,
        Except.ok (500, Except.ok ⟨none, none, none⟩),
        fun _ => none, 0⟩).2.Error = "HTTP 500" := by
  have h401 := C7_status_classification
    ⟨Except.ok "tok", none, Except.ok (401, Except.ok ⟨none, none, none⟩),
      fun _ => none, 0⟩ "tok" 401
    (Except.ok ⟨none, none, none⟩) rfl rfl rfl (by decide)
  have h403 := C7_status_classification
    ⟨Except.ok "tok", none, Except.ok (403, Except.ok ⟨none, none, none⟩),
      fun _ => none, 0⟩ "tok" 403
    (Except.ok ⟨none, none, none⟩) rfl rfl rfl (by decide)
  have h500 := C7_status_classification
    ⟨Except.ok "tok", none, Except.ok (500, Except.ok ⟨none, none, none⟩),
      fun _ => none, 0⟩ "tok" 500
    (Except.ok ⟨none, none, none⟩) rfl rfl rfl (by decide)
  refine ⟨⟨h401.1, ?_⟩, ?_, ?_⟩
  · rw [h401.2.2]
    simp
  · rw [h403.2.2]
    simp
  · rw [h500.2.2]
    decide

/-- C8: a bucket whose reset string fails RFC3339 parsing keeps its
utilization and gets an absent reset time, and a fetch that reached a
successfully decoded 200 response succeeds regardless, publishing a data
snapshot — one bad timestamp never fails the whole fetch. -/
theorem C8_bad_timestamp_degrades (parse : String → Option ℚ)
    (b : usageBucket) (s : String)
    (hs : b.ResetsAt = some s) (hp : parse s = none) :
    parseBucket parse (some b) = (b.Utilization, none) ∧
    (∀ (env : FetchEnv) (tok : String) (data : usageResponse),
      env.cred = Except.ok tok → env.reqErr = none →
      env.doResult = Except.ok (200, Except.ok data) →
      env.parseTime = parse →
      (Fetch env).1 = true ∧ isDataSnapshot (Fetch env).2 ∧
      (data.FiveHour = some b →
        (Fetch env).2.FiveHour = b.Utilization ∧
        (Fetch env).2.FiveHourResets = none)) := by
  constructor
  · simp [parseBucket, hs, hp]
  · intro env tok data hcred hreq hdo hparse
    obtain ⟨cred, reqErr, doResult, parseTime, now⟩ := env
    cases hcred
    cases hreq
    cases hdo
    cases hparse
    have hp2 : parseTime s = none := hp
    refine ⟨rfl, rfl, fun hfh => ?_⟩
    constructor
    · show (buildSnapshot _ data).FiveHour = b.Utilization
      simp [buildSnapshot, hfh, parseBucket]
    · show (buildSnapshot _ data).FiveHourResets = none
      simp [buildSnapshot, hfh, parseBucket, hs, hp2]

/-- Witness for C8: a five-hour bucket with utilization 50 and an
unparseable reset string, inside a decoded 200 response. -/
theorem C8_bad_timestamp_degrades_witness :
    (parseBucket (fun s => if s = "good" then some 3700 else none)
      (some ⟨some 50, some "not-a-time"⟩) = (some 50, none)) ∧
    (Fetch ⟨Except.ok "tok", none,
      Except.ok (200, Except.ok
        ⟨some ⟨some 50, some "not-a-time"⟩, none, none⟩),
      fun s => if s = "good" then some 3700 else none, 100⟩).1 = true := by
  have h := C8_bad_timestamp_degrades
    (fun s => if s = "good" then some 3700 else none)
    ⟨some 50, some "not-a-time"⟩
    "not-a-time" rfl (by decide)
  refine ⟨h.1, ?_⟩
  exact (h.2 _ "tok"
    ⟨some ⟨some 50, some "not-a-time"⟩, none, none⟩
    rfl rfl rfl rfl).1

/-- Helper: every non-200 status message of a three-digit HTTP status fits
the 50-rune budget. -/
lemma statusMessage_length_le (status : Nat) (h : status ≤ 999) :
    (statusMessage status).data.length ≤ 50 := by
  unfold statusMessage
  split_ifs
  · decide
  · decide
  · have hr : (Nat.repr status).length ≤ 3 :=
      Nat.repr_length status 3 (by norm_num) (by omega)
    have hd : ("HTTP " ++ Nat.repr status).data =
        "HTTP ".data ++ (Nat.repr status).data := String.data_append _ _
    rw [hd, List.length_append]
    have h3 : (Nat.repr status).data.length ≤ 3 := hr
    have h5 : ("HTTP " : String).data.length = 5 := rfl
    omega

/-- C9: `truncate` returns its input unchanged when it has at most `n`
runes and exactly the first `n` runes otherwise — always a rune-boundary
prefix — and every error message a `Fetch` stores in `Error` is the
50-rune truncation of the raw message of the path taken (HTTP statuses are
three-digit, so the untruncated status messages already fit the budget). -/
theorem C9_truncate_spec :
    (∀ (s : String) (n : Nat),
      (s.data.length ≤ n → truncate s n = s) ∧
      (n < s.data.length → (truncate s n).data = s.data.take n) ∧
      (truncate s n).data = s.data.take (min n s.data.length)) ∧
    (∀ env : FetchEnv,
      (∀ status body, env.doResult = Except.ok (status, body) →
        status ≤ 999) →
      (Fetch env).2.Error = truncate (fetchRawError env) 50) := by
  constructor
  · intro s n
    refine ⟨fun h => ?_, fun h => ?_, truncate_data s n⟩
    · unfold truncate
      rw [if_pos h]
    · rw [truncate_data, Nat.min_eq_left (Nat.le_of_lt h)]
  · intro env hstatus
    obtain ⟨cred, reqErr, doResult, parseTime, now⟩ := env
    cases cred with
    | error e => rfl
    | ok tok =>
      cases reqErr with
      | some m => rfl
      | none =>
        cases doResult with
        | error m => rfl
        | ok sb =>
          obtain ⟨status, body⟩ := sb
          by_cases hstat : status = 200
          · subst hstat
            cases body with
            | error m => rfl
            | ok data => rfl
          · have h999 : status ≤ 999 := hstatus status body rfl
            have hfe : Fetch ⟨Except.ok tok, none,
                Except.ok (status, body), parseTime, now⟩ =
                (false, errorState (statusMessage status)) := by
              simp [Fetch, hstat]
            have hraw : fetchRawError ⟨Except.ok tok, none,
                Except.ok (status, body), parseTime, now⟩ =
                statusMessage status := by
              simp [fetchRawError, hstat]
            rw [hfe, hraw]
            show statusMessage status = truncate (statusMessage status) 50
            unfold truncate
            rw [if_pos (statusMessage_length_le status h999)]

/-- Witness for C9: the 500-status path stores exactly the truncation of
its raw message. -/
theorem C9_truncate_spec_witness :
    (Fetch ⟨Except.ok "tok", none,
      Except.ok (500, Except.ok ⟨none, none, none⟩),
      fun _ => none, 0⟩).2.Error =
    truncate (fetchRawError ⟨Except.ok "tok", none,
      Except.ok (500, Except.ok ⟨none, none, none⟩),
      fun _ => none, 0⟩) 50 :=
  C9_truncate_spec.2
    ⟨Except.ok "tok", none, Except.ok (500, Except.ok ⟨none, none, none⟩),
      fun _ => none, 0⟩
    (by rintro st b h
        simp only [Except.ok.injEq, Prod.mk.injEq] at h
        omega)

/-- C6 counterexample: in the concrete successful fetch `envC6`, the
`seven_day` bucket has both a utilization (50) and a parsed reset time
(3700), the Projection Engine on those values yields 62.5, yet the
published snapshot carries no projected utilization for that bucket — the
snapshot type has projection fields only for the five-hour bucket. -/
theorem C6_counterexample :
    (Fetch envC6).1 = true ∧
    carriedUtilization (Fetch envC6).2 BucketId.sevenDay = some 50 ∧
    carriedResets (Fetch envC6).2 BucketId.sevenDay = some 3700 ∧
    computeProjection 50 3700 100 fiveHourWindow = some (125 / 2) ∧
    carriedProjection (Fetch envC6).2 BucketId.sevenDay = none := by
  refine ⟨rfl, ?_, ?_, by norm_num [computeProjection, fiveHourWindow], rfl⟩
  · show (buildSnapshot envC6 _).SevenDay = some 50
    norm_num [buildSnapshot, envC6, parseBucket]
  · show (buildSnapshot envC6 _).SevenDayResets = some 3700
    norm_num [buildSnapshot, envC6, parseBucket]

/-- C6 amended: only the five-hour bucket is projected. In a successful
fetch, when the five-hour bucket has both a utilization and a parsed reset
time, the snapshot carries `computeProjection` for it and, when that
projection exceeds 100, `computeSaturationTime`; the seven-day buckets
never carry a projection (the snapshot has no fields for them). -/
theorem C6_amended_fiveHour_only (env : FetchEnv) (tok : String)
    (data : usageResponse)
    (hcred : env.cred = Except.ok tok) (hreq : env.reqErr = none)
    (hdo : env.doResult = Except.ok (200, Except.ok data)) :
    (Fetch env).1 = true ∧
    (∀ u r, parseBucket env.parseTime data.FiveHour = (some u, some r) →
      (Fetch env).2.FiveHourProjected =
        computeProjection u r env.now fiveHourWindow ∧
      (Fetch env).2.FiveHourSaturation =
        (match computeProjection u r env.now fiveHourWindow with
         | some p =>
             if 100 < p then
               computeSaturationTime u r env.now fiveHourWindow
             else none
         | none => none)) ∧
    carriedProjection (Fetch env).2 BucketId.sevenDay = none ∧
    carriedProjection (Fetch env).2 BucketId.sevenDaySonnet = none := by
  obtain ⟨cred, reqErr, doResult, parseTime, now⟩ := env
  cases hcred
  cases hreq
  cases hdo
  refine ⟨rfl, fun u r hpb => ?_, rfl, rfl⟩
  constructor
  · show (buildSnapshot _ data).FiveHourProjected =
      computeProjection u r now fiveHourWindow
    simp [buildSnapshot, hpb]
  · show (buildSnapshot _ data).FiveHourSaturation = _
    simp only [buildSnapshot, hpb]
    cases computeProjection u r now fiveHourWindow with
    | none => rfl
    | some p => rfl

/-- Witness for the amended C6, at a successful fetch whose five-hour
bucket holds utilization 90 with reset instant 3700 against `now = 100`
(projection 112.5, saturation 1700). -/
theorem C6_amended_fiveHour_only_witness :
    (Fetch ⟨Except.ok "tok", none,
      Except.ok (200, Except.ok
        ⟨some ⟨some 90, some "2031-01-01T00:01:40Z"⟩, none, none⟩),
      fun s => if s = "2031-01-01T00:01:40Z" then some 3700 else none,
      100⟩).1 = true ∧
    (Fetch ⟨Except.ok "tok", none,
      Except.ok (200, Except.ok
        ⟨some ⟨some 90, some "2031-01-01T00:01:40Z"⟩, none, none⟩),
      fun s => if s = "2031-01-01T00:01:40Z" then some 3700 else none,
      100⟩).2.FiveHourProjected =
        computeProjection 90 3700 100 fiveHourWindow := by
  have h := C6_amended_fiveHour_only
    ⟨Except.ok "tok", none,
      Except.ok (200, Except.ok
        ⟨some ⟨some 90, some "2031-01-01T00:01:40Z"⟩, none, none⟩),
      fun s => if s = "2031-01-01T00:01:40Z" then some 3700 else none,
      100⟩ "tok"
    ⟨some ⟨some 90, some "2031-01-01T00:01:40Z"⟩, none, none⟩
    rfl rfl rfl
  exact ⟨h.1, (h.2.1 90 3700 (by norm_num [parseBucket])).1⟩
